import Mathlib

/-!
Shallow embedding of the `GtwFees1` Elrond smart contract
(`src/gtwfees1.rs`): a payment splitter that accepts a deposit in a
configured token, keeps a percentage as fees and forwards the rest.

Modelling choices:
* `BigUint` is modelled as `Nat` (it is an arbitrary-precision unsigned
  integer).  Elrond `BigUint` subtraction signals a VM error when the
  result would be negative; it is modelled as `bigUintSub : Nat → Nat →
  Option Nat` returning `none` on underflow.
* `TokenIdentifier` and `ManagedAddress` are opaque identifiers with
  decidable equality; both are modelled as `String`.
* Contract storage (the five `SingleValueMapper` fields) is an explicit
  `State` record threaded through the endpoints.
* `require!(cond, msg)` is an early return of `SCResult::Err(msg)`;
  errors are `Except.error msg` with the exact message string of the
  source.
* `self.send().direct(to, token, nonce, amount, data)` queues an
  outbound transfer; an endpoint call is modelled as returning the list
  of transfers it issued (empty when the call fails, since the Elrond
  VM executes a call transactionally).
-/

abbrev TokenIdentifier := String

abbrev ManagedAddress := String

/-- `TokenIdentifier::egld()`: the chain-native token identifier. -/
def TokenIdentifier.egld : TokenIdentifier := "EGLD"

/-- Result type of an endpoint body: `SCResult<()>` from the source. -/
abbrev SCResult := Except String Unit

/-- Elrond `BigUint` subtraction: the VM signals an error (aborting the
call) when the result would be negative, so the operation is partial. -/
def bigUintSub (a b : Nat) : Option Nat :=
  if b ≤ a then some (a - b) else none

/-- The VM error message raised by `BigUint` subtraction on underflow. -/
def subUnderflowMsg : String := "cannot subtract because result would be negative"

/-- Message of `require!(payment_token == ..., "Invalid payment token")`;
the spec calls this error `WrongToken`. -/
def wrongTokenMsg : String := "Invalid payment token"

/-- Message of `require!(payment_amount > ..., ...)`; the spec calls this
error `BelowMinimum`. -/
def belowMinMsg : String := "The payment must be greater than the min_amount"

/-- Message of `require!(fees_in_percent > 0, ...)` in `init`; the spec
calls configuration errors `InvalidConfiguration`. -/
def feesPercentMsg : String := "Fees in percent must be greater than zero"

/-- Message of `require!(min_amount >= 0, ...)` in `init` (dead code on an
unsigned `BigUint`). -/
def minAmountMsg : String := "Min amount must be greater than or equal to zero"

/-- The five storage fields of the contract, one per `SingleValueMapper`.
Before deployment every field holds the decoded default of empty storage. -/
structure State where
  acceptedPaymentTokenId : TokenIdentifier
  acceptedFeesAddrId : ManagedAddress
  acceptedRestAddrId : ManagedAddress
  minAmount : Nat
  feesInPercent : Nat
deriving DecidableEq, Repr

/-- Empty (pre-deployment) storage. -/
def emptyState : State :=
  { acceptedPaymentTokenId := ""
    acceptedFeesAddrId := ""
    acceptedRestAddrId := ""
    minAmount := 0
    feesInPercent := 0 }

/-- An outbound value transfer issued by `self.send().direct(...)`. -/
structure Transfer where
  dest : ManagedAddress
  token : TokenIdentifier
  nonce : Nat
  amount : Nat
  data : String
deriving DecidableEq, Repr

/-- View `getAcceptedPaymentToken` / storage mapper `acceptedPaymentTokenId`. -/
def accepted_payment_token_id (s : State) : TokenIdentifier :=
  s.acceptedPaymentTokenId

/-- View `getAcceptedFeesAddr` / storage mapper `acceptedFeesAddrId`. -/
def accepted_fees_addr_id (s : State) : ManagedAddress :=
  s.acceptedFeesAddrId

/-- View `getAcceptedRestAddr` / storage mapper `acceptedRestAddrId`. -/
def accepted_rest_addr_id (s : State) : ManagedAddress :=
  s.acceptedRestAddrId

/-- View `getMinAmount` / storage mapper `minAmount`. -/
def min_amount (s : State) : Nat :=
  s.minAmount

/-- View `feesInPercent` / storage mapper `feesInPercent`. -/
def fees_in_percent (s : State) : Nat :=
  s.feesInPercent

/-- Body of `init`, line by line: `require!(min_amount >= 0, ...)` (never
fails on an unsigned value); store `min_amount`; `require!(fees_in_percent
> 0, ...)`; store `fees_in_percent`; resolve the optional token id
(default `egld`); store the two addresses and the token id. Note the
`min_amount` write happens before the `fees_in_percent` check, exactly as
in the source. -/
def init (s : State) (min_amount fees_in_percent : Nat)
    (fees_addr rest_addr : ManagedAddress)
    (opt_token_id : Option TokenIdentifier) : SCResult × State :=
  if min_amount ≥ 0 then
    let s1 : State := { s with minAmount := min_amount }
    if fees_in_percent > 0 then
      let s2 : State := { s1 with feesInPercent := fees_in_percent }
      let token_id : TokenIdentifier :=
        match opt_token_id with
        | some t => t
        | none => TokenIdentifier.egld
      let s3 : State := { s2 with acceptedFeesAddrId := fees_addr }
      let s4 : State := { s3 with acceptedRestAddrId := rest_addr }
      let s5 : State := { s4 with acceptedPaymentTokenId := token_id }
      (Except.ok (), s5)
    else
      (Except.error feesPercentMsg, s1)
  else
    (Except.error minAmountMsg, s)

/-- Observable semantics of deploying with `init`: the Elrond VM executes
a contract call transactionally, so when the call returns `SCResult::Err`
every storage write made during the call is reverted and the post-call
storage equals the pre-call storage. -/
def txInit (s : State) (min_amount fees_in_percent : Nat)
    (fees_addr rest_addr : ManagedAddress)
    (opt_token_id : Option TokenIdentifier) : SCResult × State :=
  match init s min_amount fees_in_percent fees_addr rest_addr opt_token_id with
  | (Except.ok (), s2) => (Except.ok (), s2)
  | (Except.error e, _) => (Except.error e, s)

/-- The `sendToken` endpoint. Returns the call result, the list of
transfers issued by the call (in order), and the post-call storage.
Faithful to the source body: `require!` the payment token matches the
accepted one; `require!` the amount strictly exceeds the minimum; compute
`amount_fees = payment_amount * fees_in_percent / 100` (truncating `Nat`
division); compute `amount_rest = payment_amount - amount_fees` with the
partial `BigUint` subtraction; issue the fees transfer then the rest
transfer with the source's memo strings. A failed call issues no
transfer, and the body contains no storage write. -/
def sendToken (s : State) (payment_token : TokenIdentifier)
    (payment_amount : Nat) : SCResult × List Transfer × State :=
  if payment_token = s.acceptedPaymentTokenId then
    if payment_amount > s.minAmount then
      let amount_fees := payment_amount * s.feesInPercent / 100
      match bigUintSub payment_amount amount_fees with
      | some amount_rest =>
        (Except.ok (),
          [{ dest := s.acceptedFeesAddrId, token := payment_token, nonce := 0,
             amount := amount_fees, data := "fees from gtw sc" },
           { dest := s.acceptedRestAddrId, token := payment_token, nonce := 0,
             amount := amount_rest, data := "payment from gtw sc" }],
          s)
      | none => (Except.error subUnderflowMsg, [], s)
    else
      (Except.error belowMinMsg, [], s)
  else
    (Except.error wrongTokenMsg, [], s)

/-- Run a sequence of `sendToken` calls, threading the storage. -/
def runDeposits (s : State) : List (TokenIdentifier × Nat) → State
  | [] => s
  | (tok, amt) :: ds => runDeposits (sendToken s tok amt).2.2 ds

/-- The configuration of the spec's worked example:
`Configure(minAmount=100, feesPercent=12, A, B, "EGLD")`. -/
def exampleState : State :=
  (txInit emptyState 100 12 "A" "B" (some "EGLD")).2

/-- A configuration with `feesPercent = 200`, reachable through `init`
because `init` only checks `fees_in_percent > 0`. -/
def overState : State :=
  (txInit emptyState 0 200 "A" "B" (some "TID")).2


/-- Case lemma: a deposit in a token other than the accepted one fails
with the wrong-token error, issues no transfer and leaves storage as is. -/
theorem sendToken_wrong_token {s : State} {tok : TokenIdentifier}
    (htok : tok ≠ s.acceptedPaymentTokenId) (amt : Nat) :
    sendToken s tok amt = (Except.error wrongTokenMsg, [], s) := by
  unfold sendToken
  rw [if_neg htok]

/-- Case lemma: a deposit in the accepted token whose amount does not
strictly exceed the minimum fails with the below-minimum error. -/
theorem sendToken_below_min {s : State} {tok : TokenIdentifier} {amt : Nat}
    (htok : tok = s.acceptedPaymentTokenId) (hamt : ¬ amt > s.minAmount) :
    sendToken s tok amt = (Except.error belowMinMsg, [], s) := by
  unfold sendToken
  rw [if_pos htok, if_neg hamt]

/-- Case lemma: a deposit that passes validation but whose fee exceeds
the deposit aborts on the underflowing `BigUint` subtraction. -/
theorem sendToken_underflow {s : State} {tok : TokenIdentifier} {amt : Nat}
    (htok : tok = s.acceptedPaymentTokenId) (hamt : amt > s.minAmount)
    (hsub : ¬ amt * s.feesInPercent / 100 ≤ amt) :
    sendToken s tok amt = (Except.error subUnderflowMsg, [], s) := by
  unfold sendToken
  rw [if_pos htok, if_pos hamt]
  have hnone : bigUintSub amt (amt * s.feesInPercent / 100) = none := by
    simp [bigUintSub, hsub]
  dsimp only
  rw [hnone]

/-- Case lemma: a deposit that passes validation and whose fee does not
exceed the deposit succeeds and issues the fees transfer followed by the
rest transfer. -/
theorem sendToken_ok {s : State} {tok : TokenIdentifier} {amt : Nat}
    (htok : tok = s.acceptedPaymentTokenId) (hamt : amt > s.minAmount)
    (hsub : amt * s.feesInPercent / 100 ≤ amt) :
    sendToken s tok amt =
      (Except.ok (),
        [{ dest := s.acceptedFeesAddrId, token := tok, nonce := 0,
           amount := amt * s.feesInPercent / 100, data := "fees from gtw sc" },
         { dest := s.acceptedRestAddrId, token := tok, nonce := 0,
           amount := amt - amt * s.feesInPercent / 100,
           data := "payment from gtw sc" }],
        s) := by
  unfold sendToken
  rw [if_pos htok, if_pos hamt]
  have hsome : bigUintSub amt (amt * s.feesInPercent / 100) =
      some (amt - amt * s.feesInPercent / 100) := by
    simp [bigUintSub, hsub]
  dsimp only
  rw [hsome]

/-- The `sendToken` body contains no storage write, so the post-call
storage equals the pre-call storage in every case. -/
theorem sendToken_state_eq (s : State) (tok : TokenIdentifier) (amt : Nat) :
    (sendToken s tok amt).2.2 = s := by
  by_cases htok : tok = s.acceptedPaymentTokenId
  · by_cases hamt : amt > s.minAmount
    · by_cases hsub : amt * s.feesInPercent / 100 ≤ amt
      · rw [sendToken_ok htok hamt hsub]
      · rw [sendToken_underflow htok hamt hsub]
    · rw [sendToken_below_min htok hamt]
  · rw [sendToken_wrong_token htok amt]

/-- When the configured percentage is at most 100, the computed fee never
exceeds the deposit amount. -/
theorem fees_le_amount {pct : Nat} (hpct : pct ≤ 100) (amt : Nat) :
    amt * pct / 100 ≤ amt := by
  have h1 : amt * pct / 100 ≤ amt * 100 / 100 :=
    Nat.div_le_div_right (Nat.mul_le_mul (Nat.le_refl amt) hpct)
  have h2 : amt * 100 / 100 = amt := by omega
  exact h1.trans (le_of_eq h2)

/-- Claim C1 (counterexample to the claim as stated): under the
`init`-reachable configuration `overState` (`feesPercent = 200`,
`minAmount = 0`, accepted token "TID") the deposit ("TID", 1) matches the
accepted token and strictly exceeds the minimum, yet `sendToken` aborts
on the underflowing subtraction and issues no transfers, so no split with
`feesAmount + restAmount = depositAmount` is produced. -/
theorem C1_counterexample :
    ("TID" = accepted_payment_token_id overState ∧ 1 > min_amount overState) ∧
    (sendToken overState "TID" 1).1 = Except.error subUnderflowMsg ∧
    (sendToken overState "TID" 1).2.1 = [] :=
  ⟨⟨rfl, by decide⟩, rfl, rfl⟩

/-- Claim C1 (amended): for every configuration whose `feesPercent` is at
most 100, every deposit that matches the accepted token and strictly
exceeds the minimum succeeds, and the two transfers it issues carry
amounts summing exactly to the deposit amount. -/
theorem C1_conservation (s : State) (tok : TokenIdentifier) (amt : Nat)
    (hpct : fees_in_percent s ≤ 100)
    (htok : tok = accepted_payment_token_id s)
    (hamt : amt > min_amount s) :
    (sendToken s tok amt).1 = Except.ok () ∧
    ∃ t1 t2, (sendToken s tok amt).2.1 = [t1, t2] ∧
      t1.amount + t2.amount = amt := by
  simp only [fees_in_percent] at hpct
  simp only [accepted_payment_token_id] at htok
  simp only [min_amount] at hamt
  have hsub : amt * s.feesInPercent / 100 ≤ amt := fees_le_amount hpct amt
  rw [sendToken_ok htok hamt hsub]
  exact ⟨rfl, _, _, rfl, Nat.add_sub_cancel' hsub⟩

/-- Claim C1 witness: the spec's worked example (12 % fees, minimum 100,
deposit 1000) succeeds with two transfers summing to 1000. -/
theorem C1_conservation_witness :
    (sendToken exampleState "EGLD" 1000).1 = Except.ok () ∧
    ∃ t1 t2, (sendToken exampleState "EGLD" 1000).2.1 = [t1, t2] ∧
      t1.amount + t2.amount = 1000 :=
  C1_conservation exampleState "EGLD" 1000 (by decide) rfl (by decide)

/-- Claim C2: whenever `sendToken` succeeds, the amounts of the two
issued transfers are exactly `floor(amount * feesPercent / 100)` under
truncating `Nat` division (the fee) and the deposit minus that fee (the
rest). -/
theorem C2_fee_floor (s : State) (tok : TokenIdentifier) (amt : Nat)
    (h : (sendToken s tok amt).1 = Except.ok ()) :
    List.map Transfer.amount (sendToken s tok amt).2.1 =
      [amt * fees_in_percent s / 100,
       amt - amt * fees_in_percent s / 100] := by
  simp only [fees_in_percent]
  by_cases htok : tok = s.acceptedPaymentTokenId
  · by_cases hamt : amt > s.minAmount
    · by_cases hsub : amt * s.feesInPercent / 100 ≤ amt
      · rw [sendToken_ok htok hamt hsub]
        rfl
      · rw [sendToken_underflow htok hamt hsub] at h
        exact Except.noConfusion h
    · rw [sendToken_below_min htok hamt] at h
      exact Except.noConfusion h
  · rw [sendToken_wrong_token htok amt] at h
    exact Except.noConfusion h

/-- Claim C2 witness: with `feesPercent = 12`, a deposit of 1000 yields
fee 120 and rest 880. -/
theorem C2_fee_floor_witness :
    List.map Transfer.amount (sendToken exampleState "EGLD" 1000).2.1 =
      [120, 880] :=
  (C2_fee_floor exampleState "EGLD" 1000 rfl).trans (by decide)

/-- Claim C3: when deploying with `init` fails (for any error, in
particular `feesPercent = 0`), the observable storage after the failed
call equals the storage before it: the transactional VM semantics revert
the `min_amount` write the body performed before the failing check. -/
theorem C3_init_atomic (s : State) (m f : Nat) (fa ra : ManagedAddress)
    (t : Option TokenIdentifier) (e : String)
    (h : (txInit s m f fa ra t).1 = Except.error e) :
    (txInit s m f fa ra t).2 = s := by
  unfold txInit at h ⊢
  rcases hinit : init s m f fa ra t with ⟨r, s2⟩
  cases r with
  | ok u =>
    cases u
    rw [hinit] at h
    exact Except.noConfusion h
  | error e2 => rfl

/-- Claim C3 witness: deploying on empty storage with `feesPercent = 0`
fails and leaves the storage untouched. -/
theorem C3_init_atomic_witness :
    (txInit emptyState 5 0 "A" "B" none).2 = emptyState :=
  C3_init_atomic emptyState 5 0 "A" "B" none feesPercentMsg rfl

/-- Claim C4: for every configuration, a deposit in the accepted token of
exactly the minimum amount is rejected with the below-minimum error,
while a deposit of one unit more passes validation (it is rejected by
neither the token check nor the minimum check). -/
theorem C4_boundary (s : State) (tok : TokenIdentifier)
    (htok : tok = accepted_payment_token_id s) :
    (sendToken s tok (min_amount s)).1 = Except.error belowMinMsg ∧
    (sendToken s tok (min_amount s + 1)).1 ≠ Except.error belowMinMsg ∧
    (sendToken s tok (min_amount s + 1)).1 ≠ Except.error wrongTokenMsg := by
  simp only [accepted_payment_token_id] at htok
  simp only [min_amount]
  refine ⟨?_, ?_, ?_⟩
  · rw [sendToken_below_min htok (lt_irrefl s.minAmount)]
  · by_cases hsub : (s.minAmount + 1) * s.feesInPercent / 100 ≤ s.minAmount + 1
    · rw [sendToken_ok htok (Nat.lt_succ_self _) hsub]
      intro hc
      exact Except.noConfusion hc
    · rw [sendToken_underflow htok (Nat.lt_succ_self _) hsub]
      intro hc
      injection hc with hmsg
      exact absurd hmsg (by decide)
  · by_cases hsub : (s.minAmount + 1) * s.feesInPercent / 100 ≤ s.minAmount + 1
    · rw [sendToken_ok htok (Nat.lt_succ_self _) hsub]
      intro hc
      exact Except.noConfusion hc
    · rw [sendToken_underflow htok (Nat.lt_succ_self _) hsub]
      intro hc
      injection hc with hmsg
      exact absurd hmsg (by decide)

/-- Claim C4 witness: with minimum 100, a deposit of 100 is rejected
below-minimum and a deposit of 101 passes validation. -/
theorem C4_boundary_witness :
    (sendToken exampleState "EGLD" (min_amount exampleState)).1 =
      Except.error belowMinMsg ∧
    (sendToken exampleState "EGLD" (min_amount exampleState + 1)).1 ≠
      Except.error belowMinMsg ∧
    (sendToken exampleState "EGLD" (min_amount exampleState + 1)).1 ≠
      Except.error wrongTokenMsg :=
  C4_boundary exampleState "EGLD" rfl

/-- Claim C5: the token check is evaluated before the minimum check, so a
deposit that both carries the wrong token and is at or below the minimum
fails with the wrong-token error, not the below-minimum error. -/
theorem C5_validation_order (s : State) (tok : TokenIdentifier) (amt : Nat)
    (htok : tok ≠ accepted_payment_token_id s) (_hamt : amt ≤ min_amount s) :
    (sendToken s tok amt).1 = Except.error wrongTokenMsg ∧
    (sendToken s tok amt).1 ≠ Except.error belowMinMsg := by
  simp only [accepted_payment_token_id] at htok
  rw [sendToken_wrong_token htok amt]
  refine ⟨rfl, ?_⟩
  intro hc
  injection hc with hmsg
  exact absurd hmsg (by decide)

/-- Claim C5 witness: a 50-unit deposit of the wrong token "USDC" (at or
below the minimum 100) is rejected with the wrong-token error. -/
theorem C5_validation_order_witness :
    (sendToken exampleState "USDC" 50).1 = Except.error wrongTokenMsg ∧
    (sendToken exampleState "USDC" 50).1 ≠ Except.error belowMinMsg :=
  C5_validation_order exampleState "USDC" 50 (by decide) (by decide)

/-- Claim C6: any deposit whose token differs from the accepted one fails
with the wrong-token error, whatever the amount. -/
theorem C6_token_gating (s : State) (tok : TokenIdentifier) (amt : Nat)
    (htok : tok ≠ accepted_payment_token_id s) :
    (sendToken s tok amt).1 = Except.error wrongTokenMsg := by
  simp only [accepted_payment_token_id] at htok
  rw [sendToken_wrong_token htok amt]

/-- Claim C6 witness: a large "USDC" deposit is rejected with the
wrong-token error. -/
theorem C6_token_gating_witness :
    (sendToken exampleState "USDC" 1000000).1 = Except.error wrongTokenMsg :=
  C6_token_gating exampleState "USDC" 1000000 (by decide)

/-- Claim C7: deployment succeeds exactly when `feesPercent` is strictly
positive, and with `feesPercent = 0` it fails with the configuration
error; a negative `minAmount` is not representable, since `min_amount` is
an unsigned `BigUint` (`Nat`), so its guard never fires. -/
theorem C7_config_validation (s : State) (m f : Nat)
    (fa ra : ManagedAddress) (t : Option TokenIdentifier) :
    ((txInit s m f fa ra t).1 = Except.ok () ↔ 0 < f) ∧
    (f = 0 → (txInit s m f fa ra t).1 = Except.error feesPercentMsg) := by
  rcases Nat.eq_zero_or_pos f with hf | hf
  · have hfail : txInit s m f fa ra t = (Except.error feesPercentMsg, s) := by
      unfold txInit init
      rw [if_pos (Nat.zero_le m), if_neg (by omega : ¬ f > 0)]
    rw [hfail]
    exact ⟨⟨fun hc => Except.noConfusion hc, fun hc => absurd hc (by omega)⟩,
           fun _ => rfl⟩
  · have hok : (txInit s m f fa ra t).1 = Except.ok () := by
      unfold txInit init
      rw [if_pos (Nat.zero_le m), if_pos hf]
    rw [hok]
    exact ⟨⟨fun _ => hf, fun _ => rfl⟩,
           fun h0 => absurd hf (by omega)⟩

/-- Claim C7 witness: deploying with `feesPercent = 0` on empty storage
fails with the configuration error. -/
theorem C7_config_validation_witness :
    ((txInit emptyState 3 0 "A" "B" none).1 = Except.ok () ↔ 0 < 0) ∧
    (0 = 0 → (txInit emptyState 3 0 "A" "B" none).1 =
      Except.error feesPercentMsg) :=
  C7_config_validation emptyState 3 0 "A" "B" none

/-- Claim C8: a `sendToken` call that fails with the wrong-token or
below-minimum error issues no transfer and leaves the storage unchanged,
while a successful call issues exactly the fees transfer followed by the
rest transfer, with the source's fixed memo strings. -/
theorem C8_failure_atomic (s : State) (tok : TokenIdentifier) (amt : Nat) :
    (((sendToken s tok amt).1 = Except.error wrongTokenMsg ∨
      (sendToken s tok amt).1 = Except.error belowMinMsg) →
      (sendToken s tok amt).2.1 = [] ∧ (sendToken s tok amt).2.2 = s) ∧
    ((sendToken s tok amt).1 = Except.ok () →
      (sendToken s tok amt).2.1 =
        [{ dest := accepted_fees_addr_id s, token := tok, nonce := 0,
           amount := amt * fees_in_percent s / 100,
           data := "fees from gtw sc" },
         { dest := accepted_rest_addr_id s, token := tok, nonce := 0,
           amount := amt - amt * fees_in_percent s / 100,
           data := "payment from gtw sc" }] ∧
      (sendToken s tok amt).2.2 = s) := by
  simp only [accepted_fees_addr_id, accepted_rest_addr_id, fees_in_percent]
  by_cases htok : tok = s.acceptedPaymentTokenId
  · by_cases hamt : amt > s.minAmount
    · by_cases hsub : amt * s.feesInPercent / 100 ≤ amt
      · rw [sendToken_ok htok hamt hsub]
        exact ⟨fun hc => hc.elim (fun h1 => Except.noConfusion h1)
                 (fun h2 => Except.noConfusion h2),
               fun _ => ⟨rfl, rfl⟩⟩
      · rw [sendToken_underflow htok hamt hsub]
        exact ⟨fun _ => ⟨rfl, rfl⟩, fun hc => Except.noConfusion hc⟩
    · rw [sendToken_below_min htok hamt]
      exact ⟨fun _ => ⟨rfl, rfl⟩, fun hc => Except.noConfusion hc⟩
  · rw [sendToken_wrong_token htok amt]
    exact ⟨fun _ => ⟨rfl, rfl⟩, fun hc => Except.noConfusion hc⟩

/-- Claim C8 witness: a wrong-token deposit issues no transfer and leaves
the storage unchanged. -/
theorem C8_failure_atomic_witness :
    (sendToken exampleState "USDC" 7).2.1 = [] ∧
    (sendToken exampleState "USDC" 7).2.2 = exampleState :=
  (C8_failure_atomic exampleState "USDC" 7).1 (Or.inl rfl)

/-- Claim C9: after a successful deployment, no sequence of `sendToken`
calls (succeeding or failing) changes any of the five configuration
accessors. -/
theorem C9_config_frame (s0 : State) (m f : Nat) (fa ra : ManagedAddress)
    (t : Option TokenIdentifier) (s1 : State)
    (_hinit : txInit s0 m f fa ra t = (Except.ok (), s1))
    (ds : List (TokenIdentifier × Nat)) :
    accepted_payment_token_id (runDeposits s1 ds) =
      accepted_payment_token_id s1 ∧
    accepted_fees_addr_id (runDeposits s1 ds) = accepted_fees_addr_id s1 ∧
    accepted_rest_addr_id (runDeposits s1 ds) = accepted_rest_addr_id s1 ∧
    min_amount (runDeposits s1 ds) = min_amount s1 ∧
    fees_in_percent (runDeposits s1 ds) = fees_in_percent s1 := by
  have hrun : ∀ (l : List (TokenIdentifier × Nat)) (s : State),
      runDeposits s l = s := by
    intro l
    induction l with
    | nil => intro s; rfl
    | cons d l2 ih =>
      intro s
      cases d with
      | mk tok amt =>
        rw [runDeposits, sendToken_state_eq]
        exact ih s
  rw [hrun]
  exact ⟨rfl, rfl, rfl, rfl, rfl⟩

/-- Claim C9 witness: after the example deployment, a mixed sequence of
succeeding and failing deposits leaves all five accessors unchanged. -/
theorem C9_config_frame_witness :
    accepted_payment_token_id
        (runDeposits exampleState [("EGLD", 1000), ("USDC", 5), ("EGLD", 100)]) =
      accepted_payment_token_id exampleState ∧
    accepted_fees_addr_id
        (runDeposits exampleState [("EGLD", 1000), ("USDC", 5), ("EGLD", 100)]) =
      accepted_fees_addr_id exampleState ∧
    accepted_rest_addr_id
        (runDeposits exampleState [("EGLD", 1000), ("USDC", 5), ("EGLD", 100)]) =
      accepted_rest_addr_id exampleState ∧
    min_amount
        (runDeposits exampleState [("EGLD", 1000), ("USDC", 5), ("EGLD", 100)]) =
      min_amount exampleState ∧
    fees_in_percent
        (runDeposits exampleState [("EGLD", 1000), ("USDC", 5), ("EGLD", 100)]) =
      fees_in_percent exampleState :=
  C9_config_frame emptyState 100 12 "A" "B" (some "EGLD") exampleState rfl
    [("EGLD", 1000), ("USDC", 5), ("EGLD", 100)]

/-- Claim C10: when the configured `feesPercent` is at most 100, the fee
of every validated deposit is at most the deposit and the subtraction is
total, so the call succeeds; and since `init` only checks `feesPercent >
0`, a configuration with `feesPercent = 200` is reachable and admits a
validated deposit on which the unsigned subtraction underflows. -/
theorem C10_underflow_bound (s : State) (tok : TokenIdentifier) (amt : Nat)
    (hpct : fees_in_percent s ≤ 100)
    (htok : tok = accepted_payment_token_id s)
    (hamt : amt > min_amount s) :
    (amt * fees_in_percent s / 100 ≤ amt ∧
     (sendToken s tok amt).1 = Except.ok ()) ∧
    ((txInit emptyState 0 200 "A" "B" (some "TID")).1 = Except.ok () ∧
     (sendToken overState "TID" 1).1 = Except.error subUnderflowMsg) := by
  simp only [fees_in_percent] at hpct ⊢
  simp only [accepted_payment_token_id] at htok
  simp only [min_amount] at hamt
  have hsub : amt * s.feesInPercent / 100 ≤ amt := fees_le_amount hpct amt
  refine ⟨⟨hsub, ?_⟩, rfl, rfl⟩
  rw [sendToken_ok htok hamt hsub]

/-- Claim C10 witness: instantiated at the example configuration
(`feesPercent = 12`) and the deposit ("EGLD", 1000). -/
theorem C10_underflow_bound_witness :
    (1000 * fees_in_percent exampleState / 100 ≤ 1000 ∧
     (sendToken exampleState "EGLD" 1000).1 = Except.ok ()) ∧
    ((txInit emptyState 0 200 "A" "B" (some "TID")).1 = Except.ok () ∧
     (sendToken overState "TID" 1).1 = Except.error subUnderflowMsg) :=
  C10_underflow_bound exampleState "EGLD" 1000 (by decide) rfl (by decide)
